import Mathlib

/-!
Shallow embedding of the two dashboard controllers of the clinic-assistant
frontend: PatientDashboard and DoctorDashboard. Each React event handler is
translated into a pure Lean function on an explicit controller-state record.
An asynchronous round trip is modelled by splitting the handler at its await
point: the dispatch phase runs first, then the resolution phase consumes the
outcome the server produced (success payload or failure detail). Effects such
as the HTTP request body, the number of history refreshes, alert messages and
console diagnostics are returned as explicit fields of the result records.
-/

/-- Model of the JavaScript trim method: removes leading and trailing
whitespace from a string. Defined over the character list so that it
evaluates in the kernel. -/
def strTrim (s : String) : String :=
  String.mk (((s.data.dropWhile Char.isWhitespace).reverse.dropWhile Char.isWhitespace).reverse)

/-- Model of the JavaScript expression x || fallback for a possibly absent
string x: the fallback is used when x is absent or empty, because the empty
string is falsy in JavaScript. -/
def jsOr (x : Option String) (fallback : String) : String :=
  match x with
  | some s => if s = "" then fallback else s
  | none => fallback

/-- Kind tag of a chat turn, matching the type field of the objects pushed
onto chatHistory. -/
inductive TurnType where
  | user
  | assistant
  | error
deriving DecidableEq, Repr

/-- One chat turn, as pushed onto the chatHistory state array. -/
structure ChatTurn where
  type : TurnType
  message : String
deriving DecidableEq, Repr

/-- Chat-relevant controller state: the input buffer chatMessage, the
transcript chatHistory, and the in-flight flag loading. -/
structure ChatState where
  chatMessage : String
  chatHistory : List ChatTurn
  loading : Bool
deriving DecidableEq, Repr

/-- Body of a POST to process_prompt. -/
structure ChatRequest where
  text : String
  session_id : String
deriving DecidableEq, Repr

/-- Server outcome of one process_prompt round trip: ok carries the
response field of the reply body, fail carries the optional detail field of
the error payload (none models a malformed or missing body). -/
inductive ChatOutcome where
  | ok (resp : String)
  | fail (detail : Option String)
deriving DecidableEq, Repr

/-- Result of the synchronous dispatch phase of sendMessage: the state after
the optimistic updates, and the request handed to the transport (none when
the guard rejected the call). -/
structure DispatchResult where
  state : ChatState
  request : Option ChatRequest
deriving DecidableEq, Repr

/-- Result of a complete sendMessage invocation: final state, the request
that was dispatched (none when the guard rejected the call), and how many
times fetchPromptHistory was triggered. -/
structure SendResult where
  state : ChatState
  request : Option ChatRequest
  historyRefreshes : Nat
deriving DecidableEq, Repr

/-- The fields of the keyboard event that handleKeyPress inspects. -/
structure KeyEvent where
  key : String
  shiftKey : Bool
deriving DecidableEq, Repr

/-- One record of the server-side prompt history. -/
structure HistoryRecord where
  prompt : String
  response : String
  created_at : String
deriving DecidableEq, Repr

/-- Server outcome of a prompt_history fetch. -/
inductive FetchOutcome where
  | ok (data : List HistoryRecord)
  | fail
deriving DecidableEq, Repr

/-- Result of fetchPromptHistory: the cached history collection afterwards,
whether the failure was written to the console diagnostic channel, and any
messages surfaced to the user. -/
structure FetchResult where
  history : List HistoryRecord
  loggedError : Bool
  surfaced : List String
deriving DecidableEq, Repr

/-- The slot draft state newSlot of the doctor controller. -/
structure SlotDraft where
  date : String
  slots : List String
deriving DecidableEq, Repr

/-- Body of a POST to appointments: a single date mapped to a list of
time-range strings. -/
structure SlotRequest where
  date : String
  slots : List String
deriving DecidableEq, Repr

/-- Server outcome of an appointments submission. -/
inductive SubmitOutcome where
  | ok
  | fail (detail : Option String)
deriving DecidableEq, Repr

/-- Result of addAppointmentSlots: the draft afterwards, the request handed
to the transport (none when validation rejected the draft), and the messages
surfaced to the user via alert. -/
structure SubmitResult where
  draft : SlotDraft
  request : Option SlotRequest
  surfaced : List String
deriving DecidableEq, Repr

namespace PatientDashboard

/-- Session identifier of the patient controller, built once per mount. -/
def sessionId (email : String) (now : Nat) : String :=
  "patient_" ++ email ++ "_" ++ toString now

/-- Embedding of fetchPromptHistory of PatientDashboard: on success the
cached collection is replaced wholesale by the response data; on failure the
message is written to the console and the cache is left unchanged. -/
def fetchPromptHistory (history : List HistoryRecord) (outcome : FetchOutcome) : FetchResult :=
  match outcome with
  | .ok data => { history := data, loggedError := false, surfaced := [] }
  | .fail => { history := history, loggedError := true, surfaced := [] }

/-- Dispatch phase of sendMessage of PatientDashboard, up to the await: the
guard returns early when the trimmed input is empty; otherwise the input
buffer is cleared, a user turn is appended, loading is set, and the request
carrying the text and the session identifier is dispatched. -/
def sendMessageDispatch (sid : String) (st : ChatState) : DispatchResult :=
  if strTrim st.chatMessage = "" then
    { state := st, request := none }
  else
    { state :=
        { chatMessage := "",
          chatHistory := st.chatHistory ++ [{ type := TurnType.user, message := st.chatMessage }],
          loading := true },
      request := some { text := st.chatMessage, session_id := sid } }

/-- Resolution phase of sendMessage of PatientDashboard, after the await:
on success an assistant turn with the response payload is appended and one
history refresh is triggered; on failure an error turn is appended whose
message is the detail field of the error payload, falling back to a generic
string; loading is reset on both paths. Returns the new state and the number
of history refreshes triggered. -/
def sendMessageResolve (st : ChatState) (outcome : ChatOutcome) : ChatState × Nat :=
  match outcome with
  | .ok resp =>
      ({ st with
          chatHistory := st.chatHistory ++ [{ type := TurnType.assistant, message := resp }],
          loading := false }, 1)
  | .fail detail =>
      ({ st with
          chatHistory := st.chatHistory ++
            [{ type := TurnType.error, message := jsOr detail "Error processing message" }],
          loading := false }, 0)

/-- Complete sendMessage invocation of PatientDashboard: the dispatch phase
followed, when a request went out, by the resolution phase on the outcome of
that request. -/
def sendMessage (sid : String) (st : ChatState) (outcome : ChatOutcome) : SendResult :=
  let d := sendMessageDispatch sid st
  match d.request with
  | none => { state := d.state, request := none, historyRefreshes := 0 }
  | some req =>
      let r := sendMessageResolve d.state outcome
      { state := r.1, request := some req, historyRefreshes := r.2 }

/-- Embedding of handleKeyPress of PatientDashboard: Enter without Shift
triggers the dispatch phase of sendMessage; any other key event is passed
through untouched. -/
def handleKeyPress (sid : String) (e : KeyEvent) (st : ChatState) : DispatchResult :=
  if e.key = "Enter" ∧ e.shiftKey = false then sendMessageDispatch sid st
  else { state := st, request := none }

end PatientDashboard

namespace DoctorDashboard

/-- Session identifier of the doctor controller, built once per mount. -/
def sessionId (email : String) (now : Nat) : String :=
  "doctor_" ++ email ++ "_" ++ toString now

/-- Embedding of fetchPromptHistory of DoctorDashboard: textually identical
to the patient version. -/
def fetchPromptHistory (history : List HistoryRecord) (outcome : FetchOutcome) : FetchResult :=
  match outcome with
  | .ok data => { history := data, loggedError := false, surfaced := [] }
  | .fail => { history := history, loggedError := true, surfaced := [] }

/-- Embedding of addSlotField: appends one empty slot string. -/
def addSlotField (d : SlotDraft) : SlotDraft :=
  { d with slots := d.slots ++ [""] }

/-- Embedding of removeSlotField: keeps exactly the slots whose position
differs from the given index, mirroring the filter over indices in the
source. -/
def removeSlotField (index : Nat) (d : SlotDraft) : SlotDraft :=
  { d with slots := (d.slots.enum.filter (fun p => p.1 != index)).map Prod.snd }

/-- Embedding of updateSlot: replaces the slot string at the given position
in place, mirroring the map over indices in the source. -/
def updateSlot (index : Nat) (value : String) (d : SlotDraft) : SlotDraft :=
  { d with slots := d.slots.mapIdx (fun i slot => if i = index then value else slot) }

/-- The remove control as reachable from the rendered page: the Remove
button is rendered, and so can invoke removeSlotField, only when the slot
sequence has more than one element. -/
def removeSlotClick (index : Nat) (d : SlotDraft) : SlotDraft :=
  if d.slots.length > 1 then removeSlotField index d else d

/-- Embedding of addAppointmentSlots: validation fails fast with an alert
when no date is set or every slot is blank after trimming; otherwise the
request maps the date to the slots that are non-blank after trimming, kept
in their original form and order. On acceptance a success alert is raised
and the draft is reset; on rejection the detail of the error payload, or a
generic fallback, is alerted and the draft is left unchanged. -/
def addAppointmentSlots (d : SlotDraft) (outcome : SubmitOutcome) : SubmitResult :=
  if d.date == "" || d.slots.all (fun slot => strTrim slot == "") then
    { draft := d, request := none,
      surfaced := ["Please provide date and at least one time slot"] }
  else
    let slotsData : SlotRequest :=
      { date := d.date, slots := d.slots.filter (fun slot => strTrim slot != "") }
    match outcome with
    | .ok =>
        { draft := { date := "", slots := [""] }, request := some slotsData,
          surfaced := ["Appointment slots added successfully!"] }
    | .fail detail =>
        { draft := d, request := some slotsData,
          surfaced := [jsOr detail "Error adding slots"] }

/-- Dispatch phase of sendMessage of DoctorDashboard, textually identical to
the patient version. -/
def sendMessageDispatch (sid : String) (st : ChatState) : DispatchResult :=
  if strTrim st.chatMessage = "" then
    { state := st, request := none }
  else
    { state :=
        { chatMessage := "",
          chatHistory := st.chatHistory ++ [{ type := TurnType.user, message := st.chatMessage }],
          loading := true },
      request := some { text := st.chatMessage, session_id := sid } }

/-- Resolution phase of sendMessage of DoctorDashboard, textually identical
to the patient version, with the same fallback string. -/
def sendMessageResolve (st : ChatState) (outcome : ChatOutcome) : ChatState × Nat :=
  match outcome with
  | .ok resp =>
      ({ st with
          chatHistory := st.chatHistory ++ [{ type := TurnType.assistant, message := resp }],
          loading := false }, 1)
  | .fail detail =>
      ({ st with
          chatHistory := st.chatHistory ++
            [{ type := TurnType.error, message := jsOr detail "Error processing message" }],
          loading := false }, 0)

/-- Complete sendMessage invocation of DoctorDashboard. -/
def sendMessage (sid : String) (st : ChatState) (outcome : ChatOutcome) : SendResult :=
  let d := sendMessageDispatch sid st
  match d.request with
  | none => { state := d.state, request := none, historyRefreshes := 0 }
  | some req =>
      let r := sendMessageResolve d.state outcome
      { state := r.1, request := some req, historyRefreshes := r.2 }

/-- Embedding of handleKeyPress of DoctorDashboard, textually identical to
the patient version. -/
def handleKeyPress (sid : String) (e : KeyEvent) (st : ChatState) : DispatchResult :=
  if e.key = "Enter" ∧ e.shiftKey = false then sendMessageDispatch sid st
  else { state := st, request := none }

end DoctorDashboard

/-- C9: for every input text that is empty or whitespace-only after
trimming, sendMessage (in both controllers) appends zero chat turns,
dispatches no request, triggers no history refresh, and leaves the whole
controller state unchanged. -/
theorem c9_blank_input_is_noop (sid : String) (st : ChatState) (outcome : ChatOutcome)
    (h : strTrim st.chatMessage = "") :
    PatientDashboard.sendMessage sid st outcome
        = { state := st, request := none, historyRefreshes := 0 }
    ∧ DoctorDashboard.sendMessage sid st outcome
        = { state := st, request := none, historyRefreshes := 0 } := by
  constructor
  · simp [PatientDashboard.sendMessage, PatientDashboard.sendMessageDispatch, h]
  · simp [DoctorDashboard.sendMessage, DoctorDashboard.sendMessageDispatch, h]

theorem c9_blank_input_is_noop_witness :
    strTrim "   " = ""
    ∧ PatientDashboard.sendMessage "patient_u_0"
        { chatMessage := "   ", chatHistory := [], loading := false } (ChatOutcome.ok "r")
        = { state := { chatMessage := "   ", chatHistory := [], loading := false },
            request := none, historyRefreshes := 0 } := by
  have h := c9_blank_input_is_noop "patient_u_0"
    { chatMessage := "   ", chatHistory := [], loading := false } (ChatOutcome.ok "r")
    (by decide)
  exact ⟨by decide, h.1⟩

/-- C5: for every non-blank input on which the round trip succeeds,
sendMessage appends exactly one user turn carrying the input text followed
by exactly one assistant turn carrying the response payload, with nothing in
between, dispatches exactly the request carrying the text and the session
identifier, and triggers exactly one history refresh. -/
theorem c5_success_appends_user_then_assistant (sid : String) (st : ChatState) (resp : String)
    (h : strTrim st.chatMessage ≠ "") :
    (PatientDashboard.sendMessage sid st (ChatOutcome.ok resp)).state.chatHistory
        = st.chatHistory ++ [{ type := TurnType.user, message := st.chatMessage },
            { type := TurnType.assistant, message := resp }]
    ∧ (PatientDashboard.sendMessage sid st (ChatOutcome.ok resp)).request
        = some { text := st.chatMessage, session_id := sid }
    ∧ (PatientDashboard.sendMessage sid st (ChatOutcome.ok resp)).historyRefreshes = 1 := by
  refine ⟨?_, ?_, ?_⟩ <;>
    simp [PatientDashboard.sendMessage, PatientDashboard.sendMessageDispatch,
      PatientDashboard.sendMessageResolve, h]

theorem c5_success_appends_user_then_assistant_witness :
    strTrim "Show my appointments today" ≠ ""
    ∧ (PatientDashboard.sendMessage "S"
          { chatMessage := "Show my appointments today", chatHistory := [], loading := false }
          (ChatOutcome.ok "You have 2 appointments.")).state.chatHistory
        = [{ type := TurnType.user, message := "Show my appointments today" },
           { type := TurnType.assistant, message := "You have 2 appointments." }]
    ∧ (PatientDashboard.sendMessage "S"
          { chatMessage := "Show my appointments today", chatHistory := [], loading := false }
          (ChatOutcome.ok "You have 2 appointments.")).historyRefreshes = 1 := by
  have h := c5_success_appends_user_then_assistant "S"
    { chatMessage := "Show my appointments today", chatHistory := [], loading := false }
    "You have 2 appointments." (by decide)
  exact ⟨by decide, by simpa using h.1, h.2.2⟩

/-- C7: a failed history refresh leaves the previously cached collection
unchanged and only writes to the console diagnostic channel, surfacing
nothing to the user, while a successful refresh replaces the collection
wholesale; this holds for both controllers. -/
theorem c7_failed_refresh_preserves_history (hist data : List HistoryRecord) :
    (PatientDashboard.fetchPromptHistory hist FetchOutcome.fail).history = hist
    ∧ (PatientDashboard.fetchPromptHistory hist FetchOutcome.fail).loggedError = true
    ∧ (PatientDashboard.fetchPromptHistory hist FetchOutcome.fail).surfaced = []
    ∧ (PatientDashboard.fetchPromptHistory hist (FetchOutcome.ok data)).history = data
    ∧ (DoctorDashboard.fetchPromptHistory hist FetchOutcome.fail).history = hist
    ∧ (DoctorDashboard.fetchPromptHistory hist FetchOutcome.fail).loggedError = true
    ∧ (DoctorDashboard.fetchPromptHistory hist FetchOutcome.fail).surfaced = []
    ∧ (DoctorDashboard.fetchPromptHistory hist (FetchOutcome.ok data)).history = data :=
  ⟨rfl, rfl, rfl, rfl, rfl, rfl, rfl, rfl⟩

/-- C4: counterexample to the claim as stated. When the error payload
carries a detail field that is present but equal to the empty string, the
code surfaces the generic fallback, not the server-supplied detail: the
JavaScript or-operator treats the empty string as absent. -/
theorem c4_counterexample :
    (PatientDashboard.sendMessage "s"
        { chatMessage := "hi", chatHistory := [], loading := false }
        (ChatOutcome.fail (some ""))).state.chatHistory
      = [{ type := TurnType.user, message := "hi" },
         { type := TurnType.error, message := "Error processing message" }]
    ∧ ("Error processing message" : String) ≠ "" := by
  exact ⟨by decide, by decide⟩

/-- C4 (amended): for every failed round trip on a non-blank input,
sendMessage appends exactly one error turn after the user turn; its message
equals the server-supplied detail when that detail is present and non-empty,
and the generic fallback when the detail is missing or empty (including a
malformed or missing body, modelled as an absent detail); and the in-flight
flag is false after every complete invocation, success or failure. -/
theorem c4_error_turn_and_loading_cleared (sid : String) (st : ChatState)
    (h : strTrim st.chatMessage ≠ "") :
    (∀ dtl : String, dtl ≠ "" →
        (PatientDashboard.sendMessage sid st (ChatOutcome.fail (some dtl))).state.chatHistory
          = st.chatHistory ++ [{ type := TurnType.user, message := st.chatMessage },
              { type := TurnType.error, message := dtl }])
    ∧ (∀ dtl : Option String, (dtl = none ∨ dtl = some "") →
        (PatientDashboard.sendMessage sid st (ChatOutcome.fail dtl)).state.chatHistory
          = st.chatHistory ++ [{ type := TurnType.user, message := st.chatMessage },
              { type := TurnType.error, message := "Error processing message" }])
    ∧ (∀ outcome : ChatOutcome,
        (PatientDashboard.sendMessage sid st outcome).state.loading = false) := by
  refine ⟨?_, ?_, ?_⟩
  · intro dtl hdtl
    simp [PatientDashboard.sendMessage, PatientDashboard.sendMessageDispatch,
      PatientDashboard.sendMessageResolve, jsOr, h, hdtl]
  · intro dtl hdtl
    rcases hdtl with hdtl | hdtl <;> subst hdtl <;>
      simp [PatientDashboard.sendMessage, PatientDashboard.sendMessageDispatch,
        PatientDashboard.sendMessageResolve, jsOr, h]
  · intro outcome
    cases outcome <;>
      simp [PatientDashboard.sendMessage, PatientDashboard.sendMessageDispatch,
        PatientDashboard.sendMessageResolve, h]

theorem c4_error_turn_and_loading_cleared_witness :
    strTrim "hi" ≠ ""
    ∧ (PatientDashboard.sendMessage "s"
          { chatMessage := "hi", chatHistory := [], loading := false }
          (ChatOutcome.fail (some "boom"))).state.chatHistory
        = [{ type := TurnType.user, message := "hi" },
           { type := TurnType.error, message := "boom" }]
    ∧ (PatientDashboard.sendMessage "s"
          { chatMessage := "hi", chatHistory := [], loading := false }
          (ChatOutcome.fail none)).state.loading = false := by
  have h := c4_error_turn_and_loading_cleared "s"
    { chatMessage := "hi", chatHistory := [], loading := false } (by decide)
  exact ⟨by decide, by simpa using h.1 "boom" (by decide), h.2.2 (ChatOutcome.fail none)⟩

/-- C8: for every slot draft in which no date is set or in which every slot
string is blank after trimming, submit issues no network request and leaves
the entire draft unchanged (only the local validation alert is raised). -/
theorem c8_invalid_draft_no_request (d : SlotDraft) (outcome : SubmitOutcome)
    (h : d.date = "" ∨ ∀ s ∈ d.slots, strTrim s = "") :
    (DoctorDashboard.addAppointmentSlots d outcome).request = none
    ∧ (DoctorDashboard.addAppointmentSlots d outcome).draft = d := by
  have hc : (d.date == "" || d.slots.all (fun slot => strTrim slot == "")) = true := by
    rcases h with h | h
    · simp [h]
    · simp [List.all_eq_true]
      exact Or.inr h
  constructor <;> simp [DoctorDashboard.addAppointmentSlots, hc]

theorem c8_invalid_draft_no_request_witness :
    (("" : String) = "" ∨ ∀ s ∈ (["9AM-10AM"] : List String), strTrim s = "")
    ∧ (DoctorDashboard.addAppointmentSlots { date := "", slots := ["9AM-10AM"] }
        SubmitOutcome.ok).request = none
    ∧ (DoctorDashboard.addAppointmentSlots { date := "", slots := ["9AM-10AM"] }
        SubmitOutcome.ok).draft = { date := "", slots := ["9AM-10AM"] } := by
  have h := c8_invalid_draft_no_request { date := "", slots := ["9AM-10AM"] }
    SubmitOutcome.ok (Or.inl rfl)
  exact ⟨Or.inl rfl, h.1, h.2⟩

/-- C6: for every draft passing validation, acceptance resets the draft to
the empty default and surfaces the success acknowledgment, while rejection
leaves the draft completely unchanged and surfaces the detail of the error
payload or the generic fallback. -/
theorem c6_submit_outcome_handling (d : SlotDraft)
    (h : ¬(d.date = "" ∨ ∀ s ∈ d.slots, strTrim s = "")) :
    (DoctorDashboard.addAppointmentSlots d SubmitOutcome.ok).draft
        = { date := "", slots := [""] }
    ∧ (DoctorDashboard.addAppointmentSlots d SubmitOutcome.ok).surfaced
        = ["Appointment slots added successfully!"]
    ∧ ∀ detail : Option String,
        (DoctorDashboard.addAppointmentSlots d (SubmitOutcome.fail detail)).draft = d
        ∧ (DoctorDashboard.addAppointmentSlots d (SubmitOutcome.fail detail)).surfaced
            = [jsOr detail "Error adding slots"] := by
  push_neg at h
  obtain ⟨hd, s, hs, hns⟩ := h
  have hc : (d.date == "" || d.slots.all (fun slot => strTrim slot == "")) = false := by
    simp [hd, List.all_eq_true]
    exact ⟨s, hs, hns⟩
  refine ⟨?_, ?_, ?_⟩
  · simp [DoctorDashboard.addAppointmentSlots, hc]
  · simp [DoctorDashboard.addAppointmentSlots, hc]
  · intro detail
    constructor <;> simp [DoctorDashboard.addAppointmentSlots, hc]

theorem c6_submit_outcome_handling_witness :
    ¬((("2025-08-24" : String)) = "" ∨ ∀ s ∈ (["9AM-10AM"] : List String), strTrim s = "")
    ∧ (DoctorDashboard.addAppointmentSlots { date := "2025-08-24", slots := ["9AM-10AM"] }
        SubmitOutcome.ok).draft = { date := "", slots := [""] }
    ∧ (DoctorDashboard.addAppointmentSlots { date := "2025-08-24", slots := ["9AM-10AM"] }
        (SubmitOutcome.fail (some "date taken"))).draft
        = { date := "2025-08-24", slots := ["9AM-10AM"] }
    ∧ (DoctorDashboard.addAppointmentSlots { date := "2025-08-24", slots := ["9AM-10AM"] }
        (SubmitOutcome.fail (some "date taken"))).surfaced = ["date taken"] := by
  have h := c6_submit_outcome_handling { date := "2025-08-24", slots := ["9AM-10AM"] }
    (by decide)
  exact ⟨by decide, h.1, (h.2.2 (some "date taken")).1,
    by simpa [jsOr] using (h.2.2 (some "date taken")).2⟩

/-- C2: counterexample to the claim as stated. The claim says each slot is
sent in trimmed form; the code filters out blank slots but sends the
surviving ones untrimmed, so a padded slot string reaches the request with
its whitespace intact. -/
theorem c2_counterexample :
    (DoctorDashboard.addAppointmentSlots { date := "2025-08-24", slots := [" 9AM-10AM "] }
        SubmitOutcome.ok).request
      = some { date := "2025-08-24", slots := [" 9AM-10AM "] }
    ∧ ([" 9AM-10AM "] : List String) ≠ [strTrim " 9AM-10AM "] := by
  exact ⟨by decide, by decide⟩

/-- C2 (amended): for every draft passing validation, submit dispatches a
request mapping the single date to exactly the subsequence of slot strings
that are non-blank after trimming, each kept in its original untrimmed form
and in original order; the concrete scenario of the claim, whose slots carry
no surrounding whitespace, is unaffected by the amendment. -/
theorem c2_request_maps_date_to_nonblank_slots (d : SlotDraft) (outcome : SubmitOutcome)
    (h : ¬(d.date = "" ∨ ∀ s ∈ d.slots, strTrim s = "")) :
    (DoctorDashboard.addAppointmentSlots d outcome).request
      = some { date := d.date, slots := d.slots.filter (fun slot => strTrim slot != "") } := by
  push_neg at h
  obtain ⟨hd, s, hs, hns⟩ := h
  have hc : (d.date == "" || d.slots.all (fun slot => strTrim slot == "")) = false := by
    simp [hd, List.all_eq_true]
    exact ⟨s, hs, hns⟩
  cases outcome <;> simp [DoctorDashboard.addAppointmentSlots, hc]

theorem c2_request_maps_date_to_nonblank_slots_witness :
    ¬((("2025-08-24" : String)) = ""
        ∨ ∀ s ∈ (["9AM-10AM", "", "2PM-3PM"] : List String), strTrim s = "")
    ∧ (DoctorDashboard.addAppointmentSlots
        { date := "2025-08-24", slots := ["9AM-10AM", "", "2PM-3PM"] } SubmitOutcome.ok).request
      = some { date := "2025-08-24", slots := ["9AM-10AM", "2PM-3PM"] } := by
  have h := c2_request_maps_date_to_nonblank_slots
    { date := "2025-08-24", slots := ["9AM-10AM", "", "2PM-3PM"] } SubmitOutcome.ok (by decide)
  exact ⟨by decide, by rw [h]; decide⟩

/-- Auxiliary fact: filtering an enumerated list by inequality of the index
and dropping the indices is the same as erasing the entry at that index,
stated for an arbitrary enumeration offset so that induction goes through. -/
lemma filter_enumFrom_ne_eq_eraseIdx (l : List String) (n index : Nat) :
    ((List.enumFrom n l).filter (fun p => p.1 != index)).map Prod.snd =
      if index < n then l else l.eraseIdx (index - n) := by
  induction l generalizing n with
  | nil => simp
  | cons a l ih =>
    by_cases hn : n = index
    · subst hn
      have h1 : (((n, a) : Nat × String).1 != n) = false := by simp
      simp [List.enumFrom, List.filter_cons, h1, ih (n + 1), Nat.lt_succ_self,
        Nat.lt_irrefl, Nat.sub_self, List.eraseIdx]
    · have h1 : (((n, a) : Nat × String).1 != index) = true := by simp [hn]
      rcases Nat.lt_or_ge index n with hlt | hge
      · simp [List.enumFrom, List.filter_cons, h1, ih (n + 1), hlt, Nat.lt_succ_of_lt hlt]
      · have h2 : ¬ index < n + 1 := by omega
        have h3 : ¬ index < n := by omega
        have h4 : index - n = (index - (n + 1)) + 1 := by omega
        simp [List.enumFrom, List.filter_cons, h1, ih (n + 1), h2, h3, h4, List.eraseIdx]

/-- The slots field after removeSlotField is exactly the original slot
sequence with the entry at the given index erased (unchanged when the index
is out of range). -/
lemma removeSlotField_slots_eq_eraseIdx (index : Nat) (d : SlotDraft) :
    (DoctorDashboard.removeSlotField index d).slots = d.slots.eraseIdx index := by
  simp [DoctorDashboard.removeSlotField, List.enum, filter_enumFrom_ne_eq_eraseIdx]

/-- C3: counterexample to the claim as stated. The removeSlotField function
itself, applied to a single-element slot sequence, removes the element and
leaves the sequence empty, so it is not a no-op and the length changes. -/
theorem c3_counterexample :
    (DoctorDashboard.removeSlotField 0 { date := "", slots := [""] }).slots = []
    ∧ ([] : List String).length ≠ ([""] : List String).length := by
  exact ⟨by decide, by decide⟩

/-- C3 (amended): the removal control reachable from the rendered page is
guarded by the render condition that the slot sequence has more than one
element; under that guard, removal on a single-element sequence is a no-op
and removal never makes the slot sequence empty. The bare removeSlotField
function, invoked directly on a single-element sequence, would empty it. -/
theorem c3_guarded_removal_preserves_nonempty (index : Nat) (d : SlotDraft)
    (h : d.slots ≠ []) :
    (d.slots.length = 1 → DoctorDashboard.removeSlotClick index d = d)
    ∧ (DoctorDashboard.removeSlotClick index d).slots ≠ [] := by
  constructor
  · intro h1
    simp [DoctorDashboard.removeSlotClick, h1]
  · by_cases hlen : d.slots.length > 1
    · simp only [DoctorDashboard.removeSlotClick, hlen, if_pos,
        removeSlotField_slots_eq_eraseIdx]
      intro he
      have h0 : (d.slots.eraseIdx index).length = 0 := by rw [he]; rfl
      rw [List.length_eraseIdx] at h0
      split at h0 <;> omega
    · simpa [DoctorDashboard.removeSlotClick, hlen] using h

theorem c3_guarded_removal_preserves_nonempty_witness :
    (({ date := "", slots := ["9AM"] } : SlotDraft).slots ≠ [])
    ∧ DoctorDashboard.removeSlotClick 0 { date := "", slots := ["9AM"] }
        = { date := "", slots := ["9AM"] }
    ∧ (DoctorDashboard.removeSlotClick 0 { date := "", slots := ["9AM"] }).slots ≠ [] := by
  have h := c3_guarded_removal_preserves_nonempty 0 { date := "", slots := ["9AM"] }
    (by decide)
  exact ⟨by decide, h.1 (by decide), h.2⟩

/-- C1: the code violates the claim. With the in-flight flag true and a
non-blank input buffer, the keyboard submission handler (Enter without
Shift) still runs sendMessage, whose guard checks only the trimmed input
text and never the loading flag, so a second user turn is appended and a
second request is dispatched while the first round trip is outstanding;
only the Send button, not the key handler, is disabled while loading. -/
theorem c1_keypress_sends_while_inflight :
    (PatientDashboard.handleKeyPress "patient_u_0" { key := "Enter", shiftKey := false }
        { chatMessage := "hi", chatHistory := [{ type := TurnType.user, message := "first" }],
          loading := true }).request
      = some { text := "hi", session_id := "patient_u_0" }
    ∧ (PatientDashboard.handleKeyPress "patient_u_0" { key := "Enter", shiftKey := false }
        { chatMessage := "hi", chatHistory := [{ type := TurnType.user, message := "first" }],
          loading := true }).state.chatHistory
      = [{ type := TurnType.user, message := "first" },
         { type := TurnType.user, message := "hi" }] := by
  exact ⟨by decide, by decide⟩

/-- C10: the two chat engines are behaviorally identical: for every session
identifier, controller state, keyboard event and server outcome, the patient
and the doctor sendMessage and key handler perform the same state
transformation and dispatch the same request; and the session identifiers
built from the same email and mount instant share their entire suffix,
differing only in the role prefix. -/
theorem c10_controllers_behaviorally_equal (sid : String) (st : ChatState)
    (outcome : ChatOutcome) (e : KeyEvent) (email : String) (now : Nat) :
    PatientDashboard.sendMessage sid st outcome = DoctorDashboard.sendMessage sid st outcome
    ∧ PatientDashboard.handleKeyPress sid e st = DoctorDashboard.handleKeyPress sid e st
    ∧ ∃ suffix : String,
        PatientDashboard.sessionId email now = "patient_" ++ suffix
        ∧ DoctorDashboard.sessionId email now = "doctor_" ++ suffix := by
  refine ⟨rfl, rfl, email ++ "_" ++ toString now, ?_, ?_⟩ <;>
    simp [PatientDashboard.sessionId, DoctorDashboard.sessionId, String.append_assoc]
